import Mathlib

/-!
Verification of `tools/translate.py`: the translator from declarative PURL
redirect rules to Apache `RedirectMatch` directives.

The only component with logic is the rule interpreter `process_rule`
(translate.py, lines 122-247).  It is embedded below as a pipeline of stage
functions, each translated from a contiguous block of the Python function,
chained in source order by `process_rule`.  Rules are Python dicts restricted
to the seven fields the code reads; they are modelled as a structure of
`Option String` fields (a present key is `some value`).  A raised
`ValueError` is modelled as `Except.error` carrying a constructor naming the
raise site, following the spec's error taxonomy; the suppressed sentinel
(Python `None`) is `Except.ok none`.
-/

/-- Python ASCII whitespace, as stripped by `str.strip()`. -/
def pyWhitespace (c : Char) : Bool :=
  c = ' ' || c = '\t' || c = '\n' || c = '\r' || c = '\x0b' || c = '\x0c'

/-- Python `str.strip()`: drop whitespace from both ends. -/
def pyStrip (s : String) : String :=
  ⟨((s.data.dropWhile pyWhitespace).reverse.dropWhile pyWhitespace).reverse⟩

/-- Python `str.lower()` (ASCII case folding, which is all the repository's
inputs use). -/
def pyLower (s : String) : String :=
  ⟨s.data.map Char.toLower⟩

/-- Python `s.startswith(t)`. -/
def pyStartsWith (s t : String) : Bool :=
  t.data.isPrefixOf s.data

/-- Characters escaped by Python `re.escape` (Python 3.7+): exactly the
characters that can have special meaning in a regular expression. -/
def reSpecial (c : Char) : Bool :=
  c = '(' || c = ')' || c = '[' || c = ']' || c = '\x7b' || c = '\x7d' ||
  c = '?' || c = '*' || c = '+' || c = '-' || c = '|' || c = '^' || c = '$' ||
  c = '\\' || c = '.' || c = '&' || c = '~' || c = '#' ||
  c = ' ' || c = '\t' || c = '\n' || c = '\r' || c = '\x0b' || c = '\x0c'

/-- Python `re.escape`: prepend a backslash to every special character. -/
def escapeList : List Char → List Char
  | [] => []
  | c :: rest =>
    if reSpecial c then '\\' :: c :: escapeList rest
    else c :: escapeList rest

/-- Python `s.replace(BACKSLASH + SLASH, SLASH)`: left-to-right replacement of
every escaped forward slash by a plain forward slash. -/
def replaceBackslashSlash : List Char → List Char
  | [] => []
  | '\\' :: '/' :: rest => '/' :: replaceBackslashSlash rest
  | c :: rest => c :: replaceBackslashSlash rest

/-- translate.py lines 112-119, `clean_source`: strip the URL string, escape
it as a regular expression, and un-escape forward slashes. -/
def clean_source (s : String) : String :=
  ⟨replaceBackslashSlash (escapeList (pyStrip s).data)⟩

/-- A rule record: a YAML map restricted to the seven keys `process_rule`
reads.  A key present in the dict is a `some` field.  The second
type-indicating key of the source (between `path` and `regex`) is named `pfx`
here because its Python name is reserved in Lean. -/
structure Rule where
  path : Option String := none
  pfx : Option String := none
  regex : Option String := none
  term_browser : Option String := none
  replacement : Option String := none
  level : Option String := none
  status : Option String := none
deriving DecidableEq

/-- The spec's error taxonomy, one constructor per `raise ValueError` site of
`process_rule` (translate.py lines 153, 155, 161/164, 177, 187, 190/192,
200, 231, 238). -/
inductive Err where
  | MissingType
  | MultipleTypes
  | ReplacementError
  | MissingLevel
  | UnknownBrowser
  | NamespaceMismatch
  | InvalidLevel
  | TopLevelPollution
  | InvalidStatus
deriving DecidableEq

/-- The local variables of `process_rule` (translate.py lines 129-134 and
156), threaded through the stages. -/
structure St where
  rule_type : String
  path : String
  pfx : String
  source : String
  replacement : String
  rule_level : String
  status : String
deriving DecidableEq

/-- translate.py lines 126-128: the base URL for an idspace. -/
def baseUrl (idspace : String) : String :=
  if idspace = "OBO" then "/obo" else "/obo/" ++ pyLower idspace

/-- translate.py lines 129-134: initial values of the locals, with the rule
type determined at line 156. -/
def initSt (rule_type : String) : St :=
  ⟨rule_type, "", "", "", "", "top", "temporary"⟩

/-- translate.py lines 140-149: the list of type-indicating keys present on
the rule, in the fixed order path, prefix, regex, term_browser. -/
def ruleTypes (r : Rule) : List String :=
  (if r.path.isSome then ["path"] else []) ++
  (if r.pfx.isSome then ["prefix"] else []) ++
  (if r.regex.isSome then ["regex"] else []) ++
  (if r.term_browser.isSome then ["term_browser"] else [])

/-- translate.py lines 151-156: fail when zero or more than one
type-indicating key is present, else classify the rule by its single type. -/
def classifyRule (r : Rule) : Except Err String :=
  if (ruleTypes r).length < 1 then .error .MissingType
  else if (ruleTypes r).length > 1 then .error .MultipleTypes
  else .ok ((ruleTypes r).headD "")

/-- translate.py lines 158-164: a term_browser rule must not carry a
replacement; every other rule needs a replacement that is non-blank after
stripping. -/
def replacementCheck (rule_type : String) (r : Rule) : Except Err Unit :=
  if rule_type = "term_browser" then
    if r.replacement.isSome then .error .ReplacementError else .ok ()
  else
    if r.replacement = none ∨ pyStrip (r.replacement.getD "") = "" then
      .error .ReplacementError
    else .ok ()

/-- translate.py lines 166-187: build source and replacement per variant;
regex rules must carry a level; term_browser must be `ontobee`
(case-insensitively) and forces level `top` and status `see other`. -/
def handleRule (idspace rule_type : String) (r : Rule) (s : St) : Except Err St :=
  if rule_type = "path" then
    .ok { s with path := r.path.getD "",
                 source := "(?i)^" ++ clean_source (r.path.getD "") ++ "$",
                 replacement := r.replacement.getD "" }
  else if rule_type = "prefix" then
    .ok { s with pfx := r.pfx.getD "",
                 source := "(?i)^" ++ clean_source (r.pfx.getD "") ++ "(.*)$",
                 replacement := r.replacement.getD "" ++ "$1" }
  else if rule_type = "regex" then
    if r.level = none then .error .MissingLevel
    else .ok { s with source := r.regex.getD "",
                      replacement := r.replacement.getD "" }
  else
    if pyLower (r.term_browser.getD "") = "ontobee" then
      .ok { s with source := "(?i)^/obo/" ++ idspace ++ "_(\\d+)$",
                   replacement := "http://www.ontobee.org/browser/rdf.php?o=" ++ idspace
                     ++ "&iri=http://purl.obolibrary.org/obo/" ++ idspace ++ "_$1",
                   rule_level := "top",
                   status := "see other" }
    else .error .UnknownBrowser

/-- translate.py lines 189-193: a path or prefix value must case-insensitively
start with the base URL. -/
def nsCheck (base_url : String) (s : St) : Except Err Unit :=
  if s.rule_type = "path" ∧ pyStartsWith (pyLower s.path) base_url = false then
    .error .NamespaceMismatch
  else if s.rule_type = "prefix" ∧ pyStartsWith (pyLower s.pfx) base_url = false then
    .error .NamespaceMismatch
  else .ok ()

/-- translate.py lines 195-206: resolve the effective level — explicit field
(lowercased, validated), else inference from a path or prefix extending
base_url with a slash, else top for term_browser, else the incoming value. -/
def levelResolve (base_url : String) (r : Rule) (s : St) : Except Err St :=
  match r.level with
  | some lv =>
    if pyLower lv = "project" ∨ pyLower lv = "top" then
      .ok { s with rule_level := pyLower lv }
    else .error .InvalidLevel
  | none =>
    if pyStartsWith (pyLower s.path) (base_url ++ "/") then
      .ok { s with rule_level := "project" }
    else if pyStartsWith (pyLower s.pfx) (base_url ++ "/") then
      .ok { s with rule_level := "project" }
    else if s.rule_type = "term_browser" then
      .ok { s with rule_level := "top" }
    else .ok s

/-- translate.py lines 222-228: the allow-list of rule shapes permitted at top
level. -/
def topAllowed (base_url idspace : String) (s : St) : Bool :=
  s.rule_type == "regex" || s.rule_type == "term_browser" ||
  s.path == base_url || s.path == base_url ++ ".owl" || s.path == base_url ++ ".obo" ||
  s.pfx == "/obo/" ++ idspace ++ "_"

/-- translate.py lines 233-238: an explicit status must be one of the three
recognized values; otherwise the default stands. -/
def statusResolve (r : Rule) (s : St) : Except Err St :=
  match r.status with
  | some st =>
    if st = "permanent" ∨ st = "temporary" ∨ st = "see other" then
      .ok { s with status := st }
    else .error .InvalidStatus
  | none => .ok s

/-- translate.py lines 240-244: Apache's preferred status keywords. -/
def apacheStatus (status : String) : String :=
  if status = "temporary" then "temp"
  else if status = "see other" then "seeother"
  else status

/-- translate.py line 247: the emitted RedirectMatch directive. -/
def directive (s : St) : String :=
  "RedirectMatch " ++ apacheStatus s.status ++ " \"" ++ s.source ++ "\" \"" ++
    s.replacement ++ "\""

/-- translate.py lines 122-247, `process_rule`: the stages above chained in
source order, with the two mode filters (lines 208-214) and the top-level
allow-list check (lines 216-231) inline. -/
def process_rule (processing_level idspace : String) (rule : Rule) :
    Except Err (Option String) :=
  match classifyRule rule with
  | .error e => .error e
  | .ok rule_type =>
    match replacementCheck rule_type rule with
    | .error e => .error e
    | .ok _ =>
      match handleRule idspace rule_type rule (initSt rule_type) with
      | .error e => .error e
      | .ok s1 =>
        match nsCheck (baseUrl idspace) s1 with
        | .error e => .error e
        | .ok _ =>
          match levelResolve (baseUrl idspace) rule s1 with
          | .error e => .error e
          | .ok s2 =>
            if processing_level = "project" ∧ s2.rule_level = "top" then .ok none
            else if processing_level = "top" ∧ s2.rule_level = "project" then .ok none
            else if processing_level = "top" ∧ topAllowed (baseUrl idspace) idspace s2 = false then
              .error .TopLevelPollution
            else
              match statusResolve rule s2 with
              | .error e => .error e
              | .ok s3 => .ok (some (directive s3))

/-- The unit tests of translate.py lines 251-285, evaluated on the embedding:
missing type, multiple types, term_browser with replacement, regex without
level, unknown term browser, idspace crosstalk, level crosstalk (two
suppressions), top-level pollution, and invalid level.  The last test's rule
(`test_invalid_level`, line 283) in fact fails the namespace check of line
190 before the level check of line 200 is reached — pytest only requires
some ValueError there, which the namespace mismatch satisfies. -/
theorem unit_tests_pass :
    process_rule "project" "OBI" { replacement := some "foo" } = .error .MissingType
  ∧ process_rule "project" "OBI" { path := some "foo", pfx := some "foo" } = .error .MultipleTypes
  ∧ process_rule "top" "OBI" { term_browser := some "ontobee", replacement := some "foo" }
      = .error .ReplacementError
  ∧ process_rule "top" "OBI" { regex := some "foo", replacement := some "foo" }
      = .error .MissingLevel
  ∧ process_rule "top" "OBI" { term_browser := some "foo" } = .error .UnknownBrowser
  ∧ process_rule "project" "OBI" { path := some "/obo/chebi/", replacement := some "foo" }
      = .error .NamespaceMismatch
  ∧ process_rule "project" "OBI" { path := some "/obo/obi", replacement := some "foo" } = .ok none
  ∧ process_rule "top" "OBI" { path := some "/obo/obi/", replacement := some "foo" } = .ok none
  ∧ process_rule "top" "OBI" { path := some "/obo/obi_core.owl", replacement := some "foo" }
      = .error .TopLevelPollution
  ∧ process_rule "project" "OBI" { level := some "bar", path := some "foo", replacement := some "foo" }
      = .error .NamespaceMismatch := by
  refine ⟨rfl, rfl, rfl, rfl, rfl, rfl, rfl, rfl, rfl, rfl⟩

/-! ### Helper lemmas about the stages -/

theorem pyStartsWith_empty (t : String) (h : t.data ≠ []) : pyStartsWith "" t = false := by
  unfold pyStartsWith
  cases ht : t.data with
  | nil => exact absurd ht h
  | cons c cs => rfl

theorem append_slash_data_ne_nil (s : String) : (s ++ "/").data ≠ [] := by
  obtain ⟨l⟩ := s
  intro h
  simp [String.append] at h

theorem classify_path (r : Rule) (p : String) (hp : r.path = some p)
    (h2 : r.pfx = none) (h3 : r.regex = none) (h4 : r.term_browser = none) :
    classifyRule r = .ok "path" := by
  simp [classifyRule, ruleTypes, hp, h2, h3, h4]

theorem classify_pfx (r : Rule) (p : String) (hp : r.pfx = some p)
    (h2 : r.path = none) (h3 : r.regex = none) (h4 : r.term_browser = none) :
    classifyRule r = .ok "prefix" := by
  simp [classifyRule, ruleTypes, hp, h2, h3, h4]

theorem classify_regex (r : Rule) (p : String) (hp : r.regex = some p)
    (h2 : r.path = none) (h3 : r.pfx = none) (h4 : r.term_browser = none) :
    classifyRule r = .ok "regex" := by
  simp [classifyRule, ruleTypes, hp, h2, h3, h4]

theorem classify_tb (r : Rule) (p : String) (hp : r.term_browser = some p)
    (h2 : r.path = none) (h3 : r.pfx = none) (h4 : r.regex = none) :
    classifyRule r = .ok "term_browser" := by
  simp [classifyRule, ruleTypes, hp, h2, h3, h4]

theorem handleRule_path (ns : String) (r : Rule) (p rep : String)
    (hp : r.path = some p) (hr : r.replacement = some rep) :
    handleRule ns "path" r (initSt "path") =
      .ok ⟨"path", p, "", "(?i)^" ++ clean_source p ++ "$", rep, "top", "temporary"⟩ := by
  simp [handleRule, initSt, hp, hr]

theorem handleRule_pfx (ns : String) (r : Rule) (p rep : String)
    (hp : r.pfx = some p) (hr : r.replacement = some rep) :
    handleRule ns "prefix" r (initSt "prefix") =
      .ok ⟨"prefix", "", p, "(?i)^" ++ clean_source p ++ "(.*)$", rep ++ "$1", "top", "temporary"⟩ := by
  simp [handleRule, initSt, hp, hr]

theorem handleRule_tb (ns : String) (r : Rule) (tb : String)
    (hp : r.term_browser = some tb) (h : pyLower tb = "ontobee") :
    handleRule ns "term_browser" r (initSt "term_browser") =
      .ok ⟨"term_browser", "", "", "(?i)^/obo/" ++ ns ++ "_(\\d+)$",
           "http://www.ontobee.org/browser/rdf.php?o=" ++ ns
             ++ "&iri=http://purl.obolibrary.org/obo/" ++ ns ++ "_$1",
           "top", "see other"⟩ := by
  simp [handleRule, initSt, hp, h]

theorem levelResolve_ok (b : String) (r : Rule) (s s' : St)
    (h : levelResolve b r s = .ok s') :
    s'.rule_type = s.rule_type ∧ s'.path = s.path ∧ s'.pfx = s.pfx ∧
    s'.source = s.source ∧ s'.replacement = s.replacement ∧ s'.status = s.status := by
  unfold levelResolve at h
  cases hl : r.level with
  | some lv =>
    simp only [hl] at h
    split at h
    · injection h with h
      subst h
      simp
    · exact Except.noConfusion h
  | none =>
    simp only [hl] at h
    split at h
    · injection h with h
      subst h
      simp
    · split at h
      · injection h with h
        subst h
        simp
      · split at h
        · injection h with h
          subst h
          simp
        · injection h with h
          subst h
          simp

theorem statusResolve_ok (r : Rule) (s s' : St) (h : statusResolve r s = .ok s') :
    s'.rule_type = s.rule_type ∧ s'.path = s.path ∧ s'.pfx = s.pfx ∧
    s'.source = s.source ∧ s'.replacement = s.replacement ∧
    s'.rule_level = s.rule_level ∧ s'.status = (r.status).getD s.status := by
  unfold statusResolve at h
  cases hs : r.status with
  | some st =>
    simp only [hs] at h
    split at h
    · injection h with h
      subst h
      simp
    · exact Except.noConfusion h
  | none =>
    simp only [hs] at h
    injection h with h
    subst h
    simp

theorem process_rule_stages (m ns : String) (r : Rule) (rt : String) (s1 s2 : St)
    (hc : classifyRule r = .ok rt) (hrep : replacementCheck rt r = .ok ())
    (hh : handleRule ns rt r (initSt rt) = .ok s1)
    (hns : nsCheck (baseUrl ns) s1 = .ok ())
    (hl : levelResolve (baseUrl ns) r s1 = .ok s2) :
    process_rule m ns r =
      if m = "project" ∧ s2.rule_level = "top" then .ok none
      else if m = "top" ∧ s2.rule_level = "project" then .ok none
      else if m = "top" ∧ topAllowed (baseUrl ns) ns s2 = false then .error .TopLevelPollution
      else
        match statusResolve r s2 with
        | .error e => .error e
        | .ok s3 => .ok (some (directive s3)) := by
  unfold process_rule
  simp only [hc, hrep, hh, hns, hl]

theorem process_rule_level_error (m ns : String) (r : Rule) (rt : String) (s1 : St) (e : Err)
    (hc : classifyRule r = .ok rt) (hrep : replacementCheck rt r = .ok ())
    (hh : handleRule ns rt r (initSt rt) = .ok s1)
    (hns : nsCheck (baseUrl ns) s1 = .ok ())
    (hl : levelResolve (baseUrl ns) r s1 = .error e) :
    process_rule m ns r = .error e := by
  unfold process_rule
  simp only [hc, hrep, hh, hns, hl]

theorem statusResolve_error (r : Rule) (s : St) (e : Err)
    (h : statusResolve r s = .error e) : e = .InvalidStatus := by
  unfold statusResolve at h
  cases hs : r.status with
  | some st =>
    simp only [hs] at h
    split at h
    · exact Except.noConfusion h
    · injection h with h
      exact h.symm
  | none =>
    simp only [hs] at h
    exact Except.noConfusion h

theorem process_rule_ns_error (m ns : String) (r : Rule) (rt : String) (s1 : St) (e : Err)
    (hc : classifyRule r = .ok rt) (hrep : replacementCheck rt r = .ok ())
    (hh : handleRule ns rt r (initSt rt) = .ok s1)
    (hns : nsCheck (baseUrl ns) s1 = .error e) :
    process_rule m ns r = .error e := by
  unfold process_rule
  simp only [hc, hrep, hh, hns]

theorem process_rule_rep_error (m ns : String) (r : Rule) (rt : String) (e : Err)
    (hc : classifyRule r = .ok rt) (hrep : replacementCheck rt r = .error e) :
    process_rule m ns r = .error e := by
  unfold process_rule
  simp only [hc, hrep]

theorem nsCheck_other (b : String) (s : St)
    (h1 : s.rule_type ≠ "path") (h2 : s.rule_type ≠ "prefix") :
    nsCheck b s = .ok () := by
  unfold nsCheck
  simp [h1, h2]

theorem levelResolve_no_level_no_paths (b : String) (r : Rule) (s : St)
    (hl : r.level = none) (hp : s.path = "") (hx : s.pfx = "")
    (ht : s.rule_type = "term_browser") :
    levelResolve b r s = .ok { s with rule_level := "top" } := by
  unfold levelResolve
  have e : pyStartsWith (pyLower "") (b ++ "/") = false :=
    pyStartsWith_empty _ (append_slash_data_ne_nil b)
  simp only [hl, hp, hx, ht, e]
  simp

theorem string_append_assoc (a b c : String) : (a ++ b) ++ c = a ++ (b ++ c) := by
  obtain ⟨la⟩ := a
  obtain ⟨lb⟩ := b
  obtain ⟨lc⟩ := c
  show (⟨(la ++ lb) ++ lc⟩ : String) = ⟨la ++ (lb ++ lc)⟩
  rw [List.append_assoc]

theorem pyStartsWith_append (a b : String) : pyStartsWith (a ++ b) a = true := by
  obtain ⟨la⟩ := a
  obtain ⟨lb⟩ := b
  show List.isPrefixOf la (la ++ lb) = true
  rw [List.isPrefixOf_iff_prefix]
  exact List.prefix_append la lb

theorem directive_split (s : St) :
    directive s = ("RedirectMatch " ++ apacheStatus s.status ++ " \"") ++
      (s.source ++ ("\" \"" ++ (s.replacement ++ "\""))) := by
  unfold directive
  simp [string_append_assoc]

theorem classify_ok_variants (r : Rule) (rt : String) (hc : classifyRule r = .ok rt) :
    ruleTypes r = [rt] := by
  unfold classifyRule at hc
  split at hc
  · exact Except.noConfusion hc
  · split at hc
    · exact Except.noConfusion hc
    · injection hc with hc
      have hlen : (ruleTypes r).length = 1 := by omega
      cases hl : ruleTypes r with
      | nil => rw [hl] at hlen; simp at hlen
      | cons a l =>
        cases l with
        | nil =>
          rw [hl] at hc
          simp at hc
          rw [hc]
        | cons b l2 => rw [hl] at hlen; simp at hlen

theorem classify_of_tb_present (r : Rule) (rt tb : String)
    (hc : classifyRule r = .ok rt) (ht : r.term_browser = some tb) :
    rt = "term_browser" := by
  have h := classify_ok_variants r rt hc
  cases hp : r.path <;> cases hx : r.pfx <;> cases hg : r.regex <;>
    simp_all [ruleTypes]

theorem handleRule_status_no_tb (ns rt : String) (r : Rule) (s1 : St)
    (h : handleRule ns rt r (initSt rt) = .ok s1) (htb : r.term_browser = none) :
    s1.status = "temporary" := by
  unfold handleRule at h
  split at h
  · injection h with h
    subst h
    rfl
  · split at h
    · injection h with h
      subst h
      rfl
    · split at h
      · split at h
        · exact Except.noConfusion h
        · injection h with h
          subst h
          rfl
      · split at h
        · rename_i hcond
          rw [htb] at hcond
          exact absurd hcond (by decide)
        · exact Except.noConfusion h

theorem handleRule_tb_status (ns : String) (r : Rule) (s1 : St)
    (h : handleRule ns "term_browser" r (initSt "term_browser") = .ok s1) :
    s1.status = "see other" := by
  unfold handleRule at h
  rw [if_neg (by decide : ¬ ("term_browser" : String) = "path"),
      if_neg (by decide : ¬ ("term_browser" : String) = "prefix"),
      if_neg (by decide : ¬ ("term_browser" : String) = "regex")] at h
  split at h
  · injection h with h
    subst h
    rfl
  · exact Except.noConfusion h

theorem success_shape (m ns : String) (r : Rule) (d : String)
    (h : process_rule m ns r = .ok (some d)) :
    ∃ rt s1 s2 s3,
      classifyRule r = .ok rt ∧ replacementCheck rt r = .ok () ∧
      handleRule ns rt r (initSt rt) = .ok s1 ∧ nsCheck (baseUrl ns) s1 = .ok () ∧
      levelResolve (baseUrl ns) r s1 = .ok s2 ∧ statusResolve r s2 = .ok s3 ∧
      d = directive s3 := by
  unfold process_rule at h
  cases hc : classifyRule r with
  | error e =>
    simp only [hc] at h
    exact Except.noConfusion h
  | ok rt =>
    simp only [hc] at h
    cases hrep : replacementCheck rt r with
    | error e =>
      simp only [hrep] at h
      exact Except.noConfusion h
    | ok u =>
      cases u
      simp only [hrep] at h
      cases hh : handleRule ns rt r (initSt rt) with
      | error e =>
        simp only [hh] at h
        exact Except.noConfusion h
      | ok s1 =>
        simp only [hh] at h
        cases hns : nsCheck (baseUrl ns) s1 with
        | error e =>
          simp only [hns] at h
          exact Except.noConfusion h
        | ok u2 =>
          cases u2
          simp only [hns] at h
          cases hl : levelResolve (baseUrl ns) r s1 with
          | error e =>
            simp only [hl] at h
            exact Except.noConfusion h
          | ok s2 =>
            simp only [hl] at h
            split at h
            · simp at h
            · split at h
              · simp at h
              · split at h
                · simp at h
                · cases hs : statusResolve r s2 with
                  | error e =>
                    simp only [hs] at h
                    exact Except.noConfusion h
                  | ok s3 =>
                    simp only [hs] at h
                    injection h with h
                    injection h with h
                    exact ⟨rt, s1, s2, s3, rfl, hrep, hh, hns, hl, hs, h.symm⟩

/-! ### Claims -/

/-- C3: with namespace OBI, a path rule on `/obo/obi` (no explicit level) is
inferred top-level and suppressed in project mode, a path rule on
`/obo/obi/` is inferred project-level and suppressed in top mode, and an
explicit `level` field takes precedence over the prefix-based inference
(an explicit `project` on the top-inferred path `/obo/obi` is processed in
project mode). -/
theorem c3_theorem :
    process_rule "project" "OBI" { path := some "/obo/obi", replacement := some "foo" } = .ok none
  ∧ process_rule "top" "OBI" { path := some "/obo/obi/", replacement := some "foo" } = .ok none
  ∧ process_rule "project" "OBI"
      { path := some "/obo/obi", replacement := some "foo", level := some "project" }
      = .ok (some "RedirectMatch temp \"(?i)^/obo/obi$\" \"foo\"") :=
  ⟨rfl, rfl, rfl⟩

/-- C5: a rule with none of the four type-indicating fields fails with
MissingType, and a rule with two or more of them fails with MultipleTypes,
in every mode, for every namespace, and regardless of every other field of
the rule - the classification precedes all other validation. -/
theorem c5_theorem :
    (∀ (m ns : String) (r : Rule),
      r.path = none → r.pfx = none → r.regex = none → r.term_browser = none →
      process_rule m ns r = .error .MissingType)
  ∧ (∀ (m ns : String) (r : Rule),
      2 ≤ (ruleTypes r).length → process_rule m ns r = .error .MultipleTypes) := by
  constructor
  · intro m ns r h1 h2 h3 h4
    unfold process_rule classifyRule
    simp [ruleTypes, h1, h2, h3, h4]
  · intro m ns r hlen
    unfold process_rule classifyRule
    have h1 : ¬ ((ruleTypes r).length < 1) := by omega
    have h2 : (ruleTypes r).length > 1 := by omega
    simp [h1, h2]

/-- C5 witness: a rule with only a replacement fails with MissingType and a
rule with both a path and a prefix fails with MultipleTypes. -/
theorem c5_witness :
    process_rule "project" "OBI" { replacement := some "foo" } = .error .MissingType
  ∧ process_rule "project" "OBI" { path := some "foo", pfx := some "foo" }
      = .error .MultipleTypes :=
  ⟨c5_theorem.1 "project" "OBI" _ rfl rfl rfl rfl,
   c5_theorem.2 "project" "OBI" _ (by decide)⟩

/-- C7: a rule classified as path, prefix or regex whose replacement is
missing or blank after stripping fails with ReplacementError, and a
term_browser rule carrying any replacement fails with ReplacementError,
in every mode and for every namespace. -/
theorem c7_theorem :
    (∀ (m ns : String) (r : Rule) (rt : String),
      classifyRule r = .ok rt → rt ≠ "term_browser" →
      (r.replacement = none ∨ pyStrip (r.replacement.getD "") = "") →
      process_rule m ns r = .error .ReplacementError)
  ∧ (∀ (m ns : String) (r : Rule) (tb : String),
      r.term_browser = some tb → r.path = none → r.pfx = none → r.regex = none →
      r.replacement.isSome = true →
      process_rule m ns r = .error .ReplacementError) := by
  constructor
  · intro m ns r rt hc hne hbad
    have hrep : replacementCheck rt r = .error .ReplacementError := by
      unfold replacementCheck
      rw [if_neg hne, if_pos hbad]
    exact process_rule_rep_error m ns r rt _ hc hrep
  · intro m ns r tb ht h2 h3 h4 hsome
    have hc := classify_tb r tb ht h2 h3 h4
    have hrep : replacementCheck "term_browser" r = .error .ReplacementError := by
      unfold replacementCheck
      rw [if_pos rfl, if_pos hsome]
    exact process_rule_rep_error m ns r _ _ hc hrep

/-- C7 witness: a regex rule without a replacement and an ontobee
term_browser rule with a replacement both fail with ReplacementError. -/
theorem c7_witness :
    process_rule "project" "OBI" { regex := some "foo" } = .error .ReplacementError
  ∧ process_rule "top" "OBI" { term_browser := some "ontobee", replacement := some "foo" }
      = .error .ReplacementError :=
  ⟨c7_theorem.1 "project" "OBI" _ "regex" rfl (by decide) (Or.inl rfl),
   c7_theorem.2 "top" "OBI" _ "ontobee" rfl rfl rfl rfl rfl⟩

/-- C2: in top mode, a rule that passes classification, replacement,
variant handling, namespace and level validation and whose effective level
is top fails with TopLevelPollution unless its shape is on the allow-list
(`topAllowed`: regex variant, term_browser variant, a path equal to
base_url, base_url + ".owl" or base_url + ".obo", or a prefix equal to
`/obo/<namespace>_` with the namespace verbatim); in particular the OBI
rule {path: /obo/obi_core.owl, replacement: foo} fails in top mode. -/
theorem c2_theorem :
    (∀ (ns : String) (r : Rule) (rt : String) (s1 s2 : St),
      classifyRule r = .ok rt → replacementCheck rt r = .ok () →
      handleRule ns rt r (initSt rt) = .ok s1 →
      nsCheck (baseUrl ns) s1 = .ok () →
      levelResolve (baseUrl ns) r s1 = .ok s2 →
      s2.rule_level = "top" →
      topAllowed (baseUrl ns) ns s2 = false →
      process_rule "top" ns r = .error .TopLevelPollution)
  ∧ (∀ (ns : String) (r : Rule) (rt : String) (s1 s2 : St),
      classifyRule r = .ok rt → replacementCheck rt r = .ok () →
      handleRule ns rt r (initSt rt) = .ok s1 →
      nsCheck (baseUrl ns) s1 = .ok () →
      levelResolve (baseUrl ns) r s1 = .ok s2 →
      topAllowed (baseUrl ns) ns s2 = true →
      process_rule "top" ns r ≠ .error .TopLevelPollution)
  ∧ process_rule "top" "OBI" { path := some "/obo/obi_core.owl", replacement := some "foo" }
      = .error .TopLevelPollution := by
  refine ⟨?_, ?_, rfl⟩
  · intro ns r rt s1 s2 hc hrep hh hns hl htop hallow
    rw [process_rule_stages "top" ns r rt s1 s2 hc hrep hh hns hl]
    rw [if_neg (by simp), if_neg (by simp [htop]), if_pos (by simp [hallow])]
  · intro ns r rt s1 s2 hc hrep hh hns hl hallow
    rw [process_rule_stages "top" ns r rt s1 s2 hc hrep hh hns hl]
    rw [if_neg (by simp)]
    split
    · exact fun h => Except.noConfusion h
    · rw [if_neg (by simp [hallow])]
      cases hs : statusResolve r s2 with
      | error e =>
        have he := statusResolve_error r s2 e hs
        subst he
        simp only [hs]
        intro h
        injection h with h
        exact Err.noConfusion h
      | ok s3 =>
        simp only [hs]
        exact fun h => Except.noConfusion h

/-- C2 witness: the OBI path rule on /obo/obi_core.owl passes every earlier
stage, resolves to top level, is not allow-listed, and is rejected. -/
theorem c2_witness :
    process_rule "top" "OBI" { path := some "/obo/obi_core.owl", replacement := some "foo" }
      = .error .TopLevelPollution :=
  c2_theorem.1 "OBI" _ "path"
    ⟨"path", "/obo/obi_core.owl", "", "(?i)^/obo/obi_core\\.owl$", "foo", "top", "temporary"⟩
    ⟨"path", "/obo/obi_core.owl", "", "(?i)^/obo/obi_core\\.owl$", "foo", "top", "temporary"⟩
    rfl rfl rfl rfl rfl rfl rfl

/-- C10: mode filtering precedes status validation.  A rule that passes the
stages up to level resolution and whose effective level differs from the
processing mode is suppressed (ok none) with no constraint at all on its
status field; the concrete OBI rule with status "bogus" is silently
suppressed in project mode; and a surviving top-mode rule that fails the
allow-list yields TopLevelPollution, never InvalidStatus. -/
theorem c10_theorem :
    (∀ (m ns : String) (r : Rule) (rt : String) (s1 s2 : St),
      classifyRule r = .ok rt → replacementCheck rt r = .ok () →
      handleRule ns rt r (initSt rt) = .ok s1 →
      nsCheck (baseUrl ns) s1 = .ok () →
      levelResolve (baseUrl ns) r s1 = .ok s2 →
      ((m = "project" ∧ s2.rule_level = "top") ∨ (m = "top" ∧ s2.rule_level = "project")) →
      process_rule m ns r = .ok none)
  ∧ process_rule "project" "OBI"
      { path := some "/obo/obi", replacement := some "foo", status := some "bogus" } = .ok none
  ∧ (∀ (ns : String) (r : Rule) (rt : String) (s1 s2 : St),
      classifyRule r = .ok rt → replacementCheck rt r = .ok () →
      handleRule ns rt r (initSt rt) = .ok s1 →
      nsCheck (baseUrl ns) s1 = .ok () →
      levelResolve (baseUrl ns) r s1 = .ok s2 →
      s2.rule_level = "top" → topAllowed (baseUrl ns) ns s2 = false →
      process_rule "top" ns r ≠ .error .InvalidStatus) := by
  refine ⟨?_, rfl, ?_⟩
  · intro m ns r rt s1 s2 hc hrep hh hns hl hmode
    rw [process_rule_stages m ns r rt s1 s2 hc hrep hh hns hl]
    rcases hmode with ⟨hm, hlv⟩ | ⟨hm, hlv⟩
    · subst hm
      rw [if_pos (by simp [hlv])]
    · subst hm
      rw [if_neg (by simp [hlv]), if_pos (by simp [hlv])]
  · intro ns r rt s1 s2 hc hrep hh hns hl htop hallow
    rw [process_rule_stages "top" ns r rt s1 s2 hc hrep hh hns hl]
    rw [if_neg (by simp), if_neg (by simp [htop]), if_pos (by simp [hallow])]
    intro h
    injection h with h
    exact Err.noConfusion h

/-- C10 witness: the OBI path rule on /obo/obi with the invalid status
"bogus" passes the stages, resolves to top level, and is suppressed in
project mode without the status ever being validated. -/
theorem c10_witness :
    process_rule "project" "OBI"
      { path := some "/obo/obi", replacement := some "foo", status := some "bogus" }
      = .ok none :=
  c10_theorem.1 "project" "OBI" _ "path"
    ⟨"path", "/obo/obi", "", "(?i)^/obo/obi$", "foo", "top", "temporary"⟩
    ⟨"path", "/obo/obi", "", "(?i)^/obo/obi$", "foo", "top", "temporary"⟩
    rfl rfl rfl rfl rfl (Or.inl ⟨rfl, rfl⟩)

/-- C1 counterexample: an ontobee term_browser rule carrying an explicit
status "permanent" is emitted with the keyword permanent, not seeother -
the explicit status field overrides the "see other" default, contradicting
the claim that the status is forced regardless of explicit fields. -/
theorem c1_counterexample :
    process_rule "top" "OBI" { term_browser := some "ontobee", status := some "permanent" }
      = .ok (some "RedirectMatch permanent \"(?i)^/obo/OBI_(\\d+)$\" \"http://www.ontobee.org/browser/rdf.php?o=OBI&iri=http://purl.obolibrary.org/obo/OBI_$1\"")
  ∧ pyStartsWith "RedirectMatch permanent \"(?i)^/obo/OBI_(\\d+)$\" \"http://www.ontobee.org/browser/rdf.php?o=OBI&iri=http://purl.obolibrary.org/obo/OBI_$1\"" "RedirectMatch seeother" = false :=
  ⟨rfl, rfl⟩

/-- C1 (amended): for every namespace, an ontobee term_browser rule with no
explicit status or level field is emitted in top mode with status field
"see other" (keyword seeother) and level top - witnessed by its suppression
in project mode; explicit status or level fields override these defaults. -/
theorem c1_theorem (ns tb : String) (h : pyLower tb = "ontobee") :
    process_rule "top" ns { term_browser := some tb }
      = .ok (some (directive ⟨"term_browser", "", "",
          "(?i)^/obo/" ++ ns ++ "_(\\d+)$",
          "http://www.ontobee.org/browser/rdf.php?o=" ++ ns
            ++ "&iri=http://purl.obolibrary.org/obo/" ++ ns ++ "_$1",
          "top", "see other"⟩))
  ∧ process_rule "project" ns { term_browser := some tb } = .ok none
  ∧ apacheStatus "see other" = "seeother" := by
  have hc := classify_tb { term_browser := some tb } tb rfl rfl rfl rfl
  have hrep : replacementCheck "term_browser" { term_browser := some tb } = .ok () := rfl
  have hh := handleRule_tb ns { term_browser := some tb } tb rfl h
  have hns : nsCheck (baseUrl ns)
      ⟨"term_browser", "", "", "(?i)^/obo/" ++ ns ++ "_(\\d+)$",
        "http://www.ontobee.org/browser/rdf.php?o=" ++ ns
          ++ "&iri=http://purl.obolibrary.org/obo/" ++ ns ++ "_$1",
        "top", "see other"⟩ = .ok () :=
    nsCheck_other _ _ (by show ("term_browser" : String) ≠ "path"; decide)
      (by show ("term_browser" : String) ≠ "prefix"; decide)
  have hl := levelResolve_no_level_no_paths (baseUrl ns) { term_browser := some tb }
      ⟨"term_browser", "", "", "(?i)^/obo/" ++ ns ++ "_(\\d+)$",
        "http://www.ontobee.org/browser/rdf.php?o=" ++ ns
          ++ "&iri=http://purl.obolibrary.org/obo/" ++ ns ++ "_$1",
        "top", "see other"⟩ rfl rfl rfl rfl
  refine ⟨?_, ?_, rfl⟩
  · rw [process_rule_stages "top" ns _ "term_browser" _ _ hc hrep hh hns hl]
    rfl
  · rw [process_rule_stages "project" ns _ "term_browser" _ _ hc hrep hh hns hl]
    rfl

/-- C1 witness: namespace GO, the plain ontobee rule, evaluated. -/
theorem c1_witness :
    process_rule "top" "GO" { term_browser := some "ontobee" }
      = .ok (some (directive ⟨"term_browser", "", "",
          "(?i)^/obo/" ++ "GO" ++ "_(\\d+)$",
          "http://www.ontobee.org/browser/rdf.php?o=" ++ "GO"
            ++ "&iri=http://purl.obolibrary.org/obo/" ++ "GO" ++ "_$1",
          "top", "see other"⟩))
  ∧ process_rule "project" "GO" { term_browser := some "ontobee" } = .ok none :=
  ⟨( c1_theorem "GO" "ontobee" rfl).1, ( c1_theorem "GO" "ontobee" rfl).2.1⟩

/-- C4 counterexample: the path rule {path: /obo/chebi/} with no replacement
fails with ReplacementError, not NamespaceMismatch, although its path does
not start with OBI's base URL - the replacement validation runs first. -/
theorem c4_counterexample :
    process_rule "project" "OBI" { path := some "/obo/chebi/" } = .error .ReplacementError
  ∧ Err.ReplacementError ≠ Err.NamespaceMismatch :=
  ⟨rfl, by decide⟩

/-- C4 (amended): a path or prefix rule with a present, non-blank
replacement whose path or prefix does not case-insensitively start with the
namespace's base URL fails with NamespaceMismatch in both modes, where the
base URL is /obo for the namespace OBO (compared case-sensitively) and
/obo/<namespace lowercased> otherwise. -/
theorem c4_theorem :
    (∀ (m ns : String) (r : Rule) (p rep : String),
      r.path = some p → r.pfx = none → r.regex = none → r.term_browser = none →
      r.replacement = some rep → pyStrip rep ≠ "" →
      pyStartsWith (pyLower p) (baseUrl ns) = false →
      process_rule m ns r = .error .NamespaceMismatch)
  ∧ (∀ (m ns : String) (r : Rule) (p rep : String),
      r.pfx = some p → r.path = none → r.regex = none → r.term_browser = none →
      r.replacement = some rep → pyStrip rep ≠ "" →
      pyStartsWith (pyLower p) (baseUrl ns) = false →
      process_rule m ns r = .error .NamespaceMismatch)
  ∧ baseUrl "OBO" = "/obo"
  ∧ (∀ ns : String, ns ≠ "OBO" → baseUrl ns = "/obo/" ++ pyLower ns) := by
  refine ⟨?_, ?_, rfl, ?_⟩
  · intro m ns r p rep hp h2 h3 h4 hr hstrip hstart
    have hc := classify_path r p hp h2 h3 h4
    have hrep : replacementCheck "path" r = .ok () := by
      unfold replacementCheck
      rw [if_neg (by decide), if_neg (by
        rintro (hco | hco)
        · rw [hr] at hco
          exact Option.noConfusion hco
        · rw [hr] at hco
          exact hstrip hco)]
    have hh := handleRule_path ns r p rep hp hr
    have hns : nsCheck (baseUrl ns)
        ⟨"path", p, "", "(?i)^" ++ clean_source p ++ "$", rep, "top", "temporary"⟩
        = .error .NamespaceMismatch := by
      unfold nsCheck
      rw [if_pos ⟨rfl, hstart⟩]
    exact process_rule_ns_error m ns r "path" _ _ hc hrep hh hns
  · intro m ns r p rep hp h2 h3 h4 hr hstrip hstart
    have hc := classify_pfx r p hp h2 h3 h4
    have hrep : replacementCheck "prefix" r = .ok () := by
      unfold replacementCheck
      rw [if_neg (by decide), if_neg (by
        rintro (hco | hco)
        · rw [hr] at hco
          exact Option.noConfusion hco
        · rw [hr] at hco
          exact hstrip hco)]
    have hh := handleRule_pfx ns r p rep hp hr
    have hns : nsCheck (baseUrl ns)
        ⟨"prefix", "", p, "(?i)^" ++ clean_source p ++ "(.*)$", rep ++ "$1", "top", "temporary"⟩
        = .error .NamespaceMismatch := by
      unfold nsCheck
      rw [if_neg (by
            rintro ⟨hco, -⟩
            exact absurd hco (by show ¬ ("prefix" : String) = "path"; decide)),
          if_pos ⟨rfl, hstart⟩]
    exact process_rule_ns_error m ns r "prefix" _ _ hc hrep hh hns
  · intro ns hne
    unfold baseUrl
    rw [if_neg hne]

/-- C4 witness: the OBI crosstalk path rule with a replacement present. -/
theorem c4_witness :
    process_rule "project" "OBI" { path := some "/obo/chebi/", replacement := some "foo" }
      = .error .NamespaceMismatch :=
  c4_theorem.1 "project" "OBI" _ "/obo/chebi/" "foo" rfl rfl rfl rfl rfl (by decide) rfl

/-- C9 counterexample: a rule with level "bar" but no replacement fails with
ReplacementError (the replacement check runs before the level check), and a
rule with level "TOP" (neither the literal "project" nor "top") is accepted
and suppressed, because the comparison lowercases the value first. -/
theorem c9_counterexample :
    process_rule "project" "OBI" { path := some "foo", level := some "bar" }
      = .error .ReplacementError
  ∧ process_rule "project" "OBI"
      { path := some "/obo/obi", replacement := some "foo", level := some "TOP" } = .ok none :=
  ⟨rfl, rfl⟩

/-- C9 (amended): a rule that passes classification, replacement validation,
variant handling, and the namespace check and that carries an explicit level
whose lowercasing is neither "project" nor "top" fails with InvalidLevel,
for every variant and in both modes, before any mode-based suppression. -/
theorem c9_theorem :
    ∀ (m ns : String) (r : Rule) (rt : String) (s1 : St) (lv : String),
      classifyRule r = .ok rt → replacementCheck rt r = .ok () →
      handleRule ns rt r (initSt rt) = .ok s1 →
      nsCheck (baseUrl ns) s1 = .ok () →
      r.level = some lv → pyLower lv ≠ "project" → pyLower lv ≠ "top" →
      process_rule m ns r = .error .InvalidLevel := by
  intro m ns r rt s1 lv hc hrep hh hns hlv h1 h2
  have hl : levelResolve (baseUrl ns) r s1 = .error .InvalidLevel := by
    unfold levelResolve
    simp only [hlv]
    rw [if_neg (by rintro (hco | hco); exacts [h1 hco, h2 hco])]
  exact process_rule_level_error m ns r rt s1 _ hc hrep hh hns hl

/-- C9 witness: the OBI path rule /obo/obi with replacement foo and level
"bar" fails with InvalidLevel in project mode. -/
theorem c9_witness :
    process_rule "project" "OBI"
      { path := some "/obo/obi", replacement := some "foo", level := some "bar" }
      = .error .InvalidLevel :=
  c9_theorem "project" "OBI" _ "path"
    ⟨"path", "/obo/obi", "", "(?i)^/obo/obi$", "foo", "top", "temporary"⟩ "bar"
    rfl rfl rfl rfl rfl (by decide) (by decide)

/-- C6: for every path rule that emits a directive, the source pattern is
the case-insensitive anchor over the cleaned path (regex metacharacters
escaped, forward slashes left alone) and the replacement is used verbatim;
for every prefix rule the source additionally ends in `(.*)$` and the
replacement gets a trailing `$1`; concretely, /obo/go.owl cleans to
/obo/go\.owl (the dot escaped, the slashes not) and the two example rules
emit the expected directives. -/
theorem c6_theorem :
    (∀ (m ns : String) (r : Rule) (p rep d : String),
      r.path = some p → r.pfx = none → r.regex = none → r.term_browser = none →
      r.replacement = some rep →
      process_rule m ns r = .ok (some d) →
      d = "RedirectMatch " ++ apacheStatus ((r.status).getD "temporary") ++ " \"" ++
            ("(?i)^" ++ clean_source p ++ "$") ++ "\" \"" ++ rep ++ "\"")
  ∧ (∀ (m ns : String) (r : Rule) (p rep d : String),
      r.pfx = some p → r.path = none → r.regex = none → r.term_browser = none →
      r.replacement = some rep →
      process_rule m ns r = .ok (some d) →
      d = "RedirectMatch " ++ apacheStatus ((r.status).getD "temporary") ++ " \"" ++
            ("(?i)^" ++ clean_source p ++ "(.*)$") ++ "\" \"" ++ (rep ++ "$1") ++ "\"")
  ∧ clean_source "/obo/go.owl" = "/obo/go\\.owl"
  ∧ process_rule "top" "GO" { path := some "/obo/go.owl", replacement := some "foo" }
      = .ok (some "RedirectMatch temp \"(?i)^/obo/go\\.owl$\" \"foo\"")
  ∧ process_rule "top" "go" { pfx := some "/obo/go_", replacement := some "http://example.org/go_" }
      = .ok (some "RedirectMatch temp \"(?i)^/obo/go_(.*)$\" \"http://example.org/go_$1\"") := by
  refine ⟨?_, ?_, rfl, rfl, rfl⟩
  · intro m ns r p rep d hp h2 h3 h4 hr hsucc
    obtain ⟨rt, s1, s2, s3, hc, hrep, hh, hns, hl, hs, hd⟩ := success_shape m ns r d hsucc
    have hc2 := classify_path r p hp h2 h3 h4
    rw [hc] at hc2
    injection hc2 with hrt
    subst hrt
    rw [handleRule_path ns r p rep hp hr] at hh
    injection hh with hh1
    subst hh1
    obtain ⟨l1, l2, l3, l4, l5, l6⟩ := levelResolve_ok (baseUrl ns) r _ s2 hl
    obtain ⟨t1, t2, t3, t4, t5, t6, t7⟩ := statusResolve_ok r s2 s3 hs
    subst hd
    unfold directive
    rw [t7, l6, t4, l4, t5, l5]
  · intro m ns r p rep d hp h2 h3 h4 hr hsucc
    obtain ⟨rt, s1, s2, s3, hc, hrep, hh, hns, hl, hs, hd⟩ := success_shape m ns r d hsucc
    have hc2 := classify_pfx r p hp h2 h3 h4
    rw [hc] at hc2
    injection hc2 with hrt
    subst hrt
    rw [handleRule_pfx ns r p rep hp hr] at hh
    injection hh with hh1
    subst hh1
    obtain ⟨l1, l2, l3, l4, l5, l6⟩ := levelResolve_ok (baseUrl ns) r _ s2 hl
    obtain ⟨t1, t2, t3, t4, t5, t6, t7⟩ := statusResolve_ok r s2 s3 hs
    subst hd
    unfold directive
    rw [t7, l6, t4, l4, t5, l5]

/-- C6 witness: the GO path example, with the theorem's conclusion evaluated
at the emitted directive. -/
theorem c6_witness :
    "RedirectMatch temp \"(?i)^/obo/go\\.owl$\" \"foo\"" =
      "RedirectMatch " ++ apacheStatus ((none : Option String).getD "temporary") ++ " \"" ++
        ("(?i)^" ++ clean_source "/obo/go.owl" ++ "$") ++ "\" \"" ++ "foo" ++ "\"" :=
  c6_theorem.1 "top" "GO" { path := some "/obo/go.owl", replacement := some "foo" }
    "/obo/go.owl" "foo" _ rfl rfl rfl rfl rfl rfl

/-- C8 counterexample: a non-suppressed ontobee term_browser rule with no
status field is emitted with keyword seeother, not the claimed default
temporary/temp. -/
theorem c8_counterexample :
    process_rule "top" "OBI" { term_browser := some "ontobee" }
      = .ok (some "RedirectMatch seeother \"(?i)^/obo/OBI_(\\d+)$\" \"http://www.ontobee.org/browser/rdf.php?o=OBI&iri=http://purl.obolibrary.org/obo/OBI_$1\"")
  ∧ pyStartsWith "RedirectMatch seeother \"(?i)^/obo/OBI_(\\d+)$\" \"http://www.ontobee.org/browser/rdf.php?o=OBI&iri=http://purl.obolibrary.org/obo/OBI_$1\"" "RedirectMatch temp" = false :=
  ⟨rfl, rfl⟩

/-- C8 (amended): for every emitted directive, a missing status field
defaults to temporary (keyword temp) on path, prefix and regex rules and to
see other (keyword seeother) on term_browser rules; an explicit status
outside permanent/temporary/see other makes a surviving rule fail with
InvalidStatus; an explicit status is emitted through the keyword mapping
permanent/temp/seeother; and the directive begins with the RedirectMatch
keyword token accordingly. -/
theorem c8_theorem :
    (∀ (m ns : String) (r : Rule) (d : String),
      r.status = none → r.term_browser = none →
      process_rule m ns r = .ok (some d) →
      pyStartsWith d "RedirectMatch temp \"" = true)
  ∧ (∀ (m ns : String) (r : Rule) (tb d : String),
      r.status = none → r.term_browser = some tb →
      process_rule m ns r = .ok (some d) →
      pyStartsWith d "RedirectMatch seeother \"" = true)
  ∧ (∀ (m ns : String) (r : Rule) (rt : String) (s1 s2 : St) (st : String),
      classifyRule r = .ok rt → replacementCheck rt r = .ok () →
      handleRule ns rt r (initSt rt) = .ok s1 →
      nsCheck (baseUrl ns) s1 = .ok () →
      levelResolve (baseUrl ns) r s1 = .ok s2 →
      ¬ (m = "project" ∧ s2.rule_level = "top") →
      ¬ (m = "top" ∧ s2.rule_level = "project") →
      (m = "top" → topAllowed (baseUrl ns) ns s2 = true) →
      r.status = some st → st ≠ "permanent" → st ≠ "temporary" → st ≠ "see other" →
      process_rule m ns r = .error .InvalidStatus)
  ∧ (∀ (m ns : String) (r : Rule) (st d : String),
      r.status = some st →
      process_rule m ns r = .ok (some d) →
      pyStartsWith d ("RedirectMatch " ++ apacheStatus st ++ " \"") = true)
  ∧ apacheStatus "permanent" = "permanent"
  ∧ apacheStatus "temporary" = "temp"
  ∧ apacheStatus "see other" = "seeother" := by
  refine ⟨?_, ?_, ?_, ?_, rfl, rfl, rfl⟩
  · intro m ns r d hstatus htb hsucc
    obtain ⟨rt, s1, s2, s3, hc, hrep, hh, hns, hl, hs, hd⟩ := success_shape m ns r d hsucc
    have htemp := handleRule_status_no_tb ns rt r s1 hh htb
    obtain ⟨l1, l2, l3, l4, l5, l6⟩ := levelResolve_ok (baseUrl ns) r s1 s2 hl
    obtain ⟨t1, t2, t3, t4, t5, t6, t7⟩ := statusResolve_ok r s2 s3 hs
    have hst3 : s3.status = "temporary" := by
      rw [t7, hstatus, l6, htemp]
      rfl
    subst hd
    rw [directive_split, hst3]
    exact pyStartsWith_append "RedirectMatch temp \""
      (s3.source ++ ("\" \"" ++ (s3.replacement ++ "\"")))
  · intro m ns r tb d hstatus htb hsucc
    obtain ⟨rt, s1, s2, s3, hc, hrep, hh, hns, hl, hs, hd⟩ := success_shape m ns r d hsucc
    have hrt := classify_of_tb_present r rt tb hc htb
    subst hrt
    have hsee := handleRule_tb_status ns r s1 hh
    obtain ⟨l1, l2, l3, l4, l5, l6⟩ := levelResolve_ok (baseUrl ns) r s1 s2 hl
    obtain ⟨t1, t2, t3, t4, t5, t6, t7⟩ := statusResolve_ok r s2 s3 hs
    have hst3 : s3.status = "see other" := by
      rw [t7, hstatus, l6, hsee]
      rfl
    subst hd
    rw [directive_split, hst3]
    exact pyStartsWith_append "RedirectMatch seeother \""
      (s3.source ++ ("\" \"" ++ (s3.replacement ++ "\"")))
  · intro m ns r rt s1 s2 st hc hrep hh hns hl hm1 hm2 htop hstatus h1 h2 h3
    rw [process_rule_stages m ns r rt s1 s2 hc hrep hh hns hl]
    rw [if_neg hm1, if_neg hm2, if_neg (by
      rintro ⟨hmt, hf⟩
      rw [htop hmt] at hf
      exact Bool.noConfusion hf)]
    have hsr : statusResolve r s2 = .error .InvalidStatus := by
      unfold statusResolve
      simp only [hstatus]
      rw [if_neg (by rintro (h | h | h); exacts [h1 h, h2 h, h3 h])]
    simp only [hsr]
  · intro m ns r st d hstatus hsucc
    obtain ⟨rt, s1, s2, s3, hc, hrep, hh, hns, hl, hs, hd⟩ := success_shape m ns r d hsucc
    obtain ⟨t1, t2, t3, t4, t5, t6, t7⟩ := statusResolve_ok r s2 s3 hs
    have hst3 : s3.status = st := by
      rw [t7, hstatus]
      rfl
    subst hd
    rw [directive_split, hst3]
    exact pyStartsWith_append ("RedirectMatch " ++ apacheStatus st ++ " \"")
      (s3.source ++ ("\" \"" ++ (s3.replacement ++ "\"")))

/-- C8 witness: the default-status path rule emits the temp keyword, and the
same rule surviving with status "bogus" fails with InvalidStatus. -/
theorem c8_witness :
    pyStartsWith "RedirectMatch temp \"(?i)^/obo/obi$\" \"foo\"" "RedirectMatch temp \"" = true
  ∧ process_rule "project" "OBI"
      { path := some "/obo/obi", replacement := some "foo", level := some "project",
        status := some "bogus" }
      = .error .InvalidStatus :=
  ⟨c8_theorem.1 "project" "OBI"
      { path := some "/obo/obi", replacement := some "foo", level := some "project" } _
      rfl rfl rfl,
   c8_theorem.2.2.1 "project" "OBI" _ "path"
      ⟨"path", "/obo/obi", "", "(?i)^/obo/obi$", "foo", "top", "temporary"⟩
      ⟨"path", "/obo/obi", "", "(?i)^/obo/obi$", "foo", "project", "temporary"⟩ "bogus"
      rfl rfl rfl rfl rfl (by decide) (by decide) (by decide)
      rfl (by decide) (by decide) (by decide)⟩
